import Mathlib

/-
Verification of `interfaces/sourcegen/sourcegen/csharp/_Config.py` from the
Cantera repository: a frozen dataclass `Config` holding two fixed class-level
crosswalk dictionaries and four per-instance dictionaries loaded from a parsed
YAML file via the classmethod `Config.from_parsed`.

Python dictionaries and the dynamically typed keyword arguments are embedded
by the inductive type `PyVal`; a dictionary is an association list of its
items in insertion order.  The truthiness test used by the `x or {}` idiom in
`from_parsed` is embedded by `PyVal.truthy`, and keyword-argument binding of a
call to `from_parsed` is embedded by `Config.from_parsed_call`.
-/

namespace Cantera.CSharp

/-- Embedding of the Python values that can flow through this fragment:
`None`, booleans, integers, strings and (string-keyed) dictionaries.
A dictionary is the association list of its items in insertion order. -/
inductive PyVal : Type where
  | none : PyVal
  | bool : Bool → PyVal
  | int : Int → PyVal
  | str : String → PyVal
  | dict : List (String × PyVal) → PyVal

/-- Python truthiness for the embedded values: `None` and `False` are falsy,
numbers are truthy iff nonzero, strings and dictionaries iff nonempty. -/
def PyVal.truthy : PyVal → Bool
  | .none => false
  | .bool b => b
  | .int n => n != 0
  | .str s => s != ""
  | .dict entries => !entries.isEmpty

/-- Whether a value is a dictionary. -/
def PyVal.isDict : PyVal → Bool
  | .dict _ => true
  | _ => false

/-- Items of a value when it is a dictionary, `[]` otherwise. -/
def PyVal.dictItems : PyVal → List (String × PyVal)
  | .dict entries => entries
  | _ => []

/-- Whether an optional argument is either absent or a dictionary. -/
def PyVal.optIsDict : Option PyVal → Bool
  | Option.none => true
  | Option.some v => v.isDict

/-- Embedding of the Python expression `a or b`: `a` if `a` is truthy,
otherwise `b`. -/
def pyOr (a b : PyVal) : PyVal :=
  if a.truthy then a else b

/-- Embedding of the frozen dataclass `Config`.  Its generated constructor
takes exactly the four annotated fields, in source order; the two fixed
crosswalks carry no field declaration in the source and are therefore
class attributes shared by every instance, embedded below as constants. -/
structure Config : Type where
  class_crosswalk : PyVal
  class_accessors : PyVal
  derived_handles : PyVal
  wrapper_classes : PyVal

/-- The fixed class attribute `Config.ret_type_crosswalk` from the source. -/
def Config.ret_type_crosswalk : PyVal :=
  PyVal.dict
    [("const char*", PyVal.str "string"),
     ("const double*", PyVal.str "double[]"),
     ("const int*", PyVal.str "int[]"),
     ("size_t", PyVal.str "nuint"),
     ("char*", PyVal.str "byte*")]

/-- The fixed class attribute `Config.prop_type_crosswalk` from the source. -/
def Config.prop_type_crosswalk : PyVal :=
  PyVal.dict
    [("byte*", PyVal.str "string"),
     ("double*", PyVal.str "double[]")]

/-- Attribute lookup of `ret_type_crosswalk` on an instance: the name is not
an instance field, so Python resolves it to the class attribute, the same
value for every instance. -/
def Config.ret_type_crosswalk_of (_c : Config) : PyVal :=
  Config.ret_type_crosswalk

/-- Attribute lookup of `prop_type_crosswalk` on an instance: resolved to the
class attribute, the same value for every instance. -/
def Config.prop_type_crosswalk_of (_c : Config) : PyVal :=
  Config.prop_type_crosswalk

/-- The parameters of the dataclass-generated `Config.__init__`: exactly the
four fields declared with a type in the source, in source order.  The two
fixed crosswalks have no type declaration, so the dataclass machinery does
not turn them into constructor parameters. -/
def Config.constructor_fields : List String :=
  ["class_crosswalk", "class_accessors", "derived_handles", "wrapper_classes"]

/-- Embedding of the body of `Config.from_parsed` once its four keyword
parameters are bound (each defaults to `None` when absent): each argument is
replaced by `x or {}` and the four results are stored in a new instance. -/
def Config.from_parsed (class_crosswalk class_accessors derived_handles
    wrapper_classes : PyVal) : Config :=
  { class_crosswalk := pyOr class_crosswalk (PyVal.dict [])
    class_accessors := pyOr class_accessors (PyVal.dict [])
    derived_handles := pyOr derived_handles (PyVal.dict [])
    wrapper_classes := pyOr wrapper_classes (PyVal.dict []) }

/-- `Config.from_parsed` with explicit presence of each keyword argument:
`Option.none` models an omitted argument, which Python binds to the declared
default `None`. -/
def Config.from_parsed_opt (a b c d : Option PyVal) : Config :=
  Config.from_parsed (a.getD PyVal.none) (b.getD PyVal.none)
    (c.getD PyVal.none) (d.getD PyVal.none)

/-- Embedding of a call `Config.from_parsed(*positional, **kwargs)`.  The
signature `from_parsed(cls, *, ...)` makes every parameter after `cls`
keyword-only: any extra positional argument raises `TypeError`, a repeated
keyword is rejected by Python before the call, a keyword outside the four
declared names raises `TypeError`, and otherwise each parameter is bound to
the supplied keyword value or to its default `None`. -/
def Config.from_parsed_call (positional : List PyVal)
    (kwargs : List (String × PyVal)) : Except String Config :=
  if ¬ positional.isEmpty then
    Except.error "TypeError: from_parsed() takes 1 positional argument"
  else if ¬ (kwargs.map Prod.fst).Nodup then
    Except.error "SyntaxError: keyword argument repeated"
  else if ¬ kwargs.all (fun kv => Config.constructor_fields.contains kv.fst) then
    Except.error "TypeError: unexpected keyword argument"
  else
    Except.ok (Config.from_parsed
      ((kwargs.lookup "class_crosswalk").getD PyVal.none)
      ((kwargs.lookup "class_accessors").getD PyVal.none)
      ((kwargs.lookup "derived_handles").getD PyVal.none)
      ((kwargs.lookup "wrapper_classes").getD PyVal.none))

/-- Embedding of attribute assignment on a `Config` instance.  The source
declares the dataclass with `frozen=True`, whose generated `__setattr__`
raises `FrozenInstanceError` unconditionally, so assignment to any attribute
of any instance fails. -/
def Config.setattr (_c : Config) (_name : String) (_value : PyVal) :
    Except String Config :=
  Except.error "FrozenInstanceError: cannot assign to field"

/-- `x or {}` is the identity on dictionary values: an empty dictionary is
falsy, so `or` yields the (equal) empty dictionary `{}`, and a nonempty
dictionary is truthy, so `or` yields it unchanged. -/
theorem pyOr_dict_empty (v : PyVal) (h : v.isDict = true) :
    pyOr v (PyVal.dict []) = v := by
  cases v with
  | dict entries =>
    cases entries with
    | nil => rfl
    | cons kv rest => rfl
  | none => simp [PyVal.isDict] at h
  | bool b => simp [PyVal.isDict] at h
  | int n => simp [PyVal.isDict] at h
  | str s => simp [PyVal.isDict] at h

/-- `x or {}` applied to an optional dictionary argument: an omitted argument
(bound to the default `None`) yields the empty dictionary, a supplied
dictionary yields itself. -/
theorem pyOr_opt_dict (a : Option PyVal) (h : PyVal.optIsDict a = true) :
    pyOr (a.getD PyVal.none) (PyVal.dict []) = a.getD (PyVal.dict []) := by
  cases a with
  | none => rfl
  | some v =>
    simp only [PyVal.optIsDict] at h
    exact pyOr_dict_empty v h

/-- C1: For every subset of the four optional keyword arguments of
`Config.from_parsed`, constructing with exactly that subset omitted yields an
instance whose omitted fields equal the empty mapping and whose remaining
fields equal the supplied mappings. -/
theorem from_parsed_omitted_subset (a b c d : Option PyVal)
    (ha : PyVal.optIsDict a = true) (hb : PyVal.optIsDict b = true)
    (hc : PyVal.optIsDict c = true) (hd : PyVal.optIsDict d = true) :
    (Config.from_parsed_opt a b c d).class_crosswalk = a.getD (PyVal.dict []) ∧
    (Config.from_parsed_opt a b c d).class_accessors = b.getD (PyVal.dict []) ∧
    (Config.from_parsed_opt a b c d).derived_handles = c.getD (PyVal.dict []) ∧
    (Config.from_parsed_opt a b c d).wrapper_classes = d.getD (PyVal.dict []) :=
  ⟨pyOr_opt_dict a ha, pyOr_opt_dict b hb, pyOr_opt_dict c hc, pyOr_opt_dict d hd⟩

/-- Witness for C1 at a concrete input: `class_crosswalk` supplied as
`{"Sol": "Solution"}`, `wrapper_classes` supplied empty, the other two
arguments omitted. -/
theorem from_parsed_omitted_subset_witness :
    PyVal.optIsDict (Option.some (PyVal.dict [("Sol", PyVal.str "Solution")])) = true ∧
    PyVal.optIsDict (Option.none : Option PyVal) = true ∧
    PyVal.optIsDict (Option.some (PyVal.dict [])) = true ∧
    ((Config.from_parsed_opt (Option.some (PyVal.dict [("Sol", PyVal.str "Solution")]))
        Option.none Option.none
        (Option.some (PyVal.dict []))).class_crosswalk
      = (Option.some (PyVal.dict [("Sol", PyVal.str "Solution")])).getD (PyVal.dict []) ∧
     (Config.from_parsed_opt (Option.some (PyVal.dict [("Sol", PyVal.str "Solution")]))
        Option.none Option.none
        (Option.some (PyVal.dict []))).class_accessors
      = (Option.none : Option PyVal).getD (PyVal.dict []) ∧
     (Config.from_parsed_opt (Option.some (PyVal.dict [("Sol", PyVal.str "Solution")]))
        Option.none Option.none
        (Option.some (PyVal.dict []))).derived_handles
      = (Option.none : Option PyVal).getD (PyVal.dict []) ∧
     (Config.from_parsed_opt (Option.some (PyVal.dict [("Sol", PyVal.str "Solution")]))
        Option.none Option.none
        (Option.some (PyVal.dict []))).wrapper_classes
      = (Option.some (PyVal.dict [])).getD (PyVal.dict [])) :=
  ⟨rfl, rfl, rfl,
   from_parsed_omitted_subset
     (Option.some (PyVal.dict [("Sol", PyVal.str "Solution")]))
     Option.none Option.none (Option.some (PyVal.dict [])) rfl rfl rfl rfl⟩

/-- C2: For every pair of constructed `Config` instances, the attributes
`ret_type_crosswalk` and `prop_type_crosswalk` are equal across the two
instances; `ret_type_crosswalk` has exactly 5 entries and maps `"size_t"` to
`"nuint"`, and `prop_type_crosswalk` has exactly 2 entries and maps
`"byte*"` to `"string"`. -/
theorem fixed_crosswalks_shared (c1 c2 : Config) :
    c1.ret_type_crosswalk_of = c2.ret_type_crosswalk_of ∧
    c1.prop_type_crosswalk_of = c2.prop_type_crosswalk_of ∧
    c1.ret_type_crosswalk_of.dictItems.length = 5 ∧
    c1.ret_type_crosswalk_of.dictItems.lookup "size_t" = Option.some (PyVal.str "nuint") ∧
    c1.prop_type_crosswalk_of.dictItems.length = 2 ∧
    c1.prop_type_crosswalk_of.dictItems.lookup "byte*" = Option.some (PyVal.str "string") :=
  ⟨rfl, rfl, rfl, rfl, rfl, rfl⟩

/-- C3: When all four arguments of `Config.from_parsed` are supplied as
populated (nonempty) mappings, each field of the result is exactly the
supplied mapping, with its entries unchanged. -/
theorem from_parsed_populated_exact (m1 m2 m3 m4 : List (String × PyVal))
    (_h1 : m1.isEmpty = false) (_h2 : m2.isEmpty = false)
    (_h3 : m3.isEmpty = false) (_h4 : m4.isEmpty = false) :
    Config.from_parsed (PyVal.dict m1) (PyVal.dict m2) (PyVal.dict m3) (PyVal.dict m4)
      = Config.mk (PyVal.dict m1) (PyVal.dict m2) (PyVal.dict m3) (PyVal.dict m4) := by
  simp only [Config.from_parsed]
  rw [pyOr_dict_empty (PyVal.dict m1) rfl, pyOr_dict_empty (PyVal.dict m2) rfl,
      pyOr_dict_empty (PyVal.dict m3) rfl, pyOr_dict_empty (PyVal.dict m4) rfl]

/-- Witness for C3 at four concrete nonempty mappings. -/
theorem from_parsed_populated_exact_witness :
    ([("Sol", PyVal.str "Solution")] : List (String × PyVal)).isEmpty = false ∧
    ([("getA", PyVal.str "A")] : List (String × PyVal)).isEmpty = false ∧
    ([("ReactorHandle", PyVal.str "Reactor")] : List (String × PyVal)).isEmpty = false ∧
    ([("Mix", PyVal.dict [("k", PyVal.str "v")])] : List (String × PyVal)).isEmpty = false ∧
    Config.from_parsed
        (PyVal.dict [("Sol", PyVal.str "Solution")])
        (PyVal.dict [("getA", PyVal.str "A")])
        (PyVal.dict [("ReactorHandle", PyVal.str "Reactor")])
        (PyVal.dict [("Mix", PyVal.dict [("k", PyVal.str "v")])])
      = Config.mk
        (PyVal.dict [("Sol", PyVal.str "Solution")])
        (PyVal.dict [("getA", PyVal.str "A")])
        (PyVal.dict [("ReactorHandle", PyVal.str "Reactor")])
        (PyVal.dict [("Mix", PyVal.dict [("k", PyVal.str "v")])]) :=
  ⟨rfl, rfl, rfl, rfl,
   from_parsed_populated_exact _ _ _ _ rfl rfl rfl rfl⟩

/-- C4: A `Config` instance is immutable after construction: the
`frozen=True` dataclass `__setattr__` makes assignment to any attribute of
any instance raise `FrozenInstanceError`, so no operation mutates an
existing instance (every operation of the embedding is a pure function). -/
theorem config_frozen (c : Config) (name : String) (v : PyVal) :
    Config.setattr c name v
      = Except.error "FrozenInstanceError: cannot assign to field" :=
  rfl

/-- C5: `Config.from_parsed` never raises for any combination of present,
absent, or malformed keyword values: a call whose keywords are among the
declared parameter names and not repeated always returns a `Config`, with no
validation of the values. -/
theorem from_parsed_no_validation (kwargs : List (String × PyVal))
    (hnodup : (kwargs.map Prod.fst).Nodup)
    (hnames : kwargs.all (fun kv => Config.constructor_fields.contains kv.fst) = true) :
    ∃ cfg, Config.from_parsed_call [] kwargs = Except.ok cfg := by
  have heq : Config.from_parsed_call [] kwargs
      = Except.ok (Config.from_parsed
          ((kwargs.lookup "class_crosswalk").getD PyVal.none)
          ((kwargs.lookup "class_accessors").getD PyVal.none)
          ((kwargs.lookup "derived_handles").getD PyVal.none)
          ((kwargs.lookup "wrapper_classes").getD PyVal.none)) := by
    unfold Config.from_parsed_call
    rw [if_neg (by simp), if_neg (not_not.mpr hnodup), if_neg (not_not.mpr hnames)]
  exact ⟨_, heq⟩

/-- Witness for C5 at a concrete call with malformed values: an integer for
`class_crosswalk` and a string for `wrapper_classes`. -/
theorem from_parsed_no_validation_witness :
    (([("class_crosswalk", PyVal.int 5),
       ("wrapper_classes", PyVal.str "oops")].map Prod.fst).Nodup) ∧
    ([("class_crosswalk", PyVal.int 5),
      ("wrapper_classes", PyVal.str "oops")].all
        (fun kv => Config.constructor_fields.contains kv.fst) = true) ∧
    ∃ cfg, Config.from_parsed_call []
        [("class_crosswalk", PyVal.int 5), ("wrapper_classes", PyVal.str "oops")]
      = Except.ok cfg :=
  ⟨by decide, rfl,
   from_parsed_no_validation
     [("class_crosswalk", PyVal.int 5), ("wrapper_classes", PyVal.str "oops")]
     (by decide) rfl⟩

/-- C6: `Config.from_parsed` is pure and deterministic: it is a function of
its arguments alone, so any two calls with equal arguments return equal
`Config` instances. -/
theorem from_parsed_deterministic (a b c d e f g h : PyVal)
    (hae : a = e) (hbf : b = f) (hcg : c = g) (hdh : d = h) :
    Config.from_parsed a b c d = Config.from_parsed e f g h := by
  subst hae hbf hcg hdh
  rfl

/-- Witness for C6 at a concrete pair of equal argument tuples. -/
theorem from_parsed_deterministic_witness :
    (PyVal.dict [("Sol", PyVal.str "Solution")]
      = PyVal.dict [("Sol", PyVal.str "Solution")]) ∧
    (PyVal.none = PyVal.none) ∧
    (PyVal.dict [] = PyVal.dict []) ∧
    (PyVal.str "x" = PyVal.str "x") ∧
    Config.from_parsed (PyVal.dict [("Sol", PyVal.str "Solution")])
        PyVal.none (PyVal.dict []) (PyVal.str "x")
      = Config.from_parsed (PyVal.dict [("Sol", PyVal.str "Solution")])
        PyVal.none (PyVal.dict []) (PyVal.str "x") :=
  ⟨rfl, rfl, rfl, rfl,
   from_parsed_deterministic (PyVal.dict [("Sol", PyVal.str "Solution")])
     PyVal.none (PyVal.dict []) (PyVal.str "x")
     (PyVal.dict [("Sol", PyVal.str "Solution")])
     PyVal.none (PyVal.dict []) (PyVal.str "x") rfl rfl rfl rfl⟩

/-- C7: Calling `Config.from_parsed` with no arguments returns an instance
whose four variable fields are all the empty mapping, while its two fixed
attributes keep their 5-entry and 2-entry built-in values. -/
theorem from_parsed_no_args :
    Config.from_parsed_call [] []
      = Except.ok (Config.mk (PyVal.dict []) (PyVal.dict [])
          (PyVal.dict []) (PyVal.dict [])) ∧
    (Config.mk (PyVal.dict []) (PyVal.dict []) (PyVal.dict [])
        (PyVal.dict [])).ret_type_crosswalk_of.dictItems.length = 5 ∧
    (Config.mk (PyVal.dict []) (PyVal.dict []) (PyVal.dict [])
        (PyVal.dict [])).prop_type_crosswalk_of.dictItems.length = 2 :=
  ⟨rfl, rfl, rfl⟩

/-- C8: For each of the four keyword arguments of `Config.from_parsed`,
passing an explicitly empty mapping produces the same `Config` as omitting
the argument (which binds it to its default `None`): `x or {}` sends both to
the empty mapping. -/
theorem from_parsed_empty_eq_absent (x y z : PyVal) :
    Config.from_parsed (PyVal.dict []) x y z
      = Config.from_parsed PyVal.none x y z ∧
    Config.from_parsed x (PyVal.dict []) y z
      = Config.from_parsed x PyVal.none y z ∧
    Config.from_parsed x y (PyVal.dict []) z
      = Config.from_parsed x y PyVal.none z ∧
    Config.from_parsed x y z (PyVal.dict [])
      = Config.from_parsed x y z PyVal.none :=
  ⟨rfl, rfl, rfl, rfl⟩

/-- C9: The two fixed crosswalks are not constructor parameters: the
generated constructor takes exactly the four variable mappings, which fully
determine the instance, and every constructed instance resolves
`ret_type_crosswalk` and `prop_type_crosswalk` to the shared class
attributes, so no construction can supply or override them. -/
theorem fixed_not_constructor_params :
    Config.constructor_fields
      = ["class_crosswalk", "class_accessors", "derived_handles", "wrapper_classes"] ∧
    "ret_type_crosswalk" ∉ Config.constructor_fields ∧
    "prop_type_crosswalk" ∉ Config.constructor_fields ∧
    (∀ a b c d : PyVal,
      (Config.mk a b c d).ret_type_crosswalk_of = Config.ret_type_crosswalk ∧
      (Config.mk a b c d).prop_type_crosswalk_of = Config.prop_type_crosswalk ∧
      (Config.mk a b c d).class_crosswalk = a ∧
      (Config.mk a b c d).class_accessors = b ∧
      (Config.mk a b c d).derived_handles = c ∧
      (Config.mk a b c d).wrapper_classes = d) ∧
    (∀ cfg : Config,
      cfg = Config.mk cfg.class_crosswalk cfg.class_accessors
        cfg.derived_handles cfg.wrapper_classes) := by
  refine ⟨rfl, by decide, by decide,
    fun a b c d => ⟨rfl, rfl, rfl, rfl, rfl, rfl⟩, fun cfg => ?_⟩
  cases cfg
  rfl

/-- C10: The four parameters of `Config.from_parsed` are keyword-only: any
call supplying a positional argument fails with an error, while a call
supplying valid keywords succeeds, and two keyword lists with the same
bindings (for example the same keywords in a different order) yield the same
instance. -/
theorem from_parsed_keyword_only (p : PyVal) (rest : List PyVal)
    (kwargs kwargs2 : List (String × PyVal))
    (hnodup : (kwargs.map Prod.fst).Nodup)
    (hnames : kwargs.all (fun kv => Config.constructor_fields.contains kv.fst) = true)
    (hnodup2 : (kwargs2.map Prod.fst).Nodup)
    (hnames2 : kwargs2.all (fun kv => Config.constructor_fields.contains kv.fst) = true)
    (hsame : ∀ n ∈ Config.constructor_fields, kwargs.lookup n = kwargs2.lookup n) :
    (∃ e, Config.from_parsed_call (p :: rest) kwargs = Except.error e) ∧
    (∃ cfg, Config.from_parsed_call [] kwargs = Except.ok cfg ∧
            Config.from_parsed_call [] kwargs2 = Except.ok cfg) := by
  constructor
  · have herr : Config.from_parsed_call (p :: rest) kwargs
        = Except.error "TypeError: from_parsed() takes 1 positional argument" := by
      unfold Config.from_parsed_call
      rw [if_pos (by simp)]
    exact ⟨_, herr⟩
  · have hok : Config.from_parsed_call [] kwargs
        = Except.ok (Config.from_parsed
            ((kwargs.lookup "class_crosswalk").getD PyVal.none)
            ((kwargs.lookup "class_accessors").getD PyVal.none)
            ((kwargs.lookup "derived_handles").getD PyVal.none)
            ((kwargs.lookup "wrapper_classes").getD PyVal.none)) := by
      unfold Config.from_parsed_call
      rw [if_neg (by simp), if_neg (not_not.mpr hnodup), if_neg (not_not.mpr hnames)]
    have hok2 : Config.from_parsed_call [] kwargs2
        = Except.ok (Config.from_parsed
            ((kwargs.lookup "class_crosswalk").getD PyVal.none)
            ((kwargs.lookup "class_accessors").getD PyVal.none)
            ((kwargs.lookup "derived_handles").getD PyVal.none)
            ((kwargs.lookup "wrapper_classes").getD PyVal.none)) := by
      unfold Config.from_parsed_call
      rw [if_neg (by simp), if_neg (not_not.mpr hnodup2), if_neg (not_not.mpr hnames2)]
      rw [hsame "class_crosswalk" (by simp [Config.constructor_fields]),
          hsame "class_accessors" (by simp [Config.constructor_fields]),
          hsame "derived_handles" (by simp [Config.constructor_fields]),
          hsame "wrapper_classes" (by simp [Config.constructor_fields])]
    exact ⟨_, hok, hok2⟩

/-- Witness for C10 at a concrete call: one positional argument fails, and
the same two keywords supplied in either order succeed with equal results. -/
theorem from_parsed_keyword_only_witness :
    (([("class_accessors", PyVal.dict [("getA", PyVal.str "A")]),
       ("class_crosswalk", PyVal.dict [("Sol", PyVal.str "Solution")])].map
        Prod.fst).Nodup) ∧
    (([("class_crosswalk", PyVal.dict [("Sol", PyVal.str "Solution")]),
       ("class_accessors", PyVal.dict [("getA", PyVal.str "A")])].map
        Prod.fst).Nodup) ∧
    (∃ e, Config.from_parsed_call [PyVal.dict []]
        [("class_accessors", PyVal.dict [("getA", PyVal.str "A")]),
         ("class_crosswalk", PyVal.dict [("Sol", PyVal.str "Solution")])]
      = Except.error e) ∧
    (∃ cfg, Config.from_parsed_call []
        [("class_accessors", PyVal.dict [("getA", PyVal.str "A")]),
         ("class_crosswalk", PyVal.dict [("Sol", PyVal.str "Solution")])]
      = Except.ok cfg ∧
      Config.from_parsed_call []
        [("class_crosswalk", PyVal.dict [("Sol", PyVal.str "Solution")]),
         ("class_accessors", PyVal.dict [("getA", PyVal.str "A")])]
      = Except.ok cfg) :=
  ⟨by decide, by decide,
   (from_parsed_keyword_only (PyVal.dict []) []
     [("class_accessors", PyVal.dict [("getA", PyVal.str "A")]),
      ("class_crosswalk", PyVal.dict [("Sol", PyVal.str "Solution")])]
     [("class_crosswalk", PyVal.dict [("Sol", PyVal.str "Solution")]),
      ("class_accessors", PyVal.dict [("getA", PyVal.str "A")])]
     (by decide) rfl (by decide) rfl
     (by intro n hn; fin_cases hn <;> rfl)).1,
   (from_parsed_keyword_only (PyVal.dict []) []
     [("class_accessors", PyVal.dict [("getA", PyVal.str "A")]),
      ("class_crosswalk", PyVal.dict [("Sol", PyVal.str "Solution")])]
     [("class_crosswalk", PyVal.dict [("Sol", PyVal.str "Solution")]),
      ("class_accessors", PyVal.dict [("getA", PyVal.str "A")])]
     (by decide) rfl (by decide) rfl
     (by intro n hn; fin_cases hn <;> rfl)).2⟩

end Cantera.CSharp
